import Mathlib

/-!
Verification of the grpclb client-side load-balancing policy
(src/core/load_balancing/grpclb/grpclb.cc) against its specification.

The development shallowly embeds the data model and the operations of the
policy: pure functions (serverlist iteration, drop selection, pick
post-processing) become Lean functions, and the serialized control loop
(balancer-call message handling, fallback transitions, retry handling,
updates) becomes an explicit step function on a policy-state record that
also emits the externally visible actions (child-policy updates, timer
arms/cancels, balancer-channel operations).
-/

namespace GrpclbPolicy

/-- Model of absl::Status as used by the policy: OK or an UNAVAILABLE
error carrying a message (the only non-OK status the policy produces). -/
inductive AbslStatus where
  | ok
  | unavailable (msg : String)
deriving DecidableEq, Repr

/-- One entry of a balancer-provided serverlist (struct GrpcLbServer):
IP bytes (`ip.length` plays the role of `ip_size`), port, LB token and
the drop flag. -/
structure GrpcLbServer where
  ip : List Nat
  port : Nat
  load_balance_token : String
  drop : Bool
deriving DecidableEq, Repr

/-- bool IsServerValid(const GrpcLbServer& server, ...): drop entries and
entries with a port whose high 16 bits are nonzero or an IP size other
than 4 or 16 are invalid (the logging parameter is irrelevant here). -/
def IsServerValid (server : GrpcLbServer) : Bool :=
  if server.drop then false
  else if server.port >>> 16 != 0 then false
  else if server.ip.length != 4 && server.ip.length != 16 then false
  else true

/-- Model of grpc_resolved_address as produced by ParseServer: an IPv4 or
IPv6 sockaddr (with the port truncated to 16 bits as by the uint16_t
cast), or the zeroed address for drop/invalid-size entries. -/
inductive ResolvedAddress where
  | v4 (bytes : List Nat) (port : Nat)
  | v6 (bytes : List Nat) (port : Nat)
  | unset
deriving DecidableEq, Repr

/-- void ParseServer(const GrpcLbServer& server, grpc_resolved_address* addr). -/
def ParseServer (server : GrpcLbServer) : ResolvedAddress :=
  if server.drop then .unset
  else if server.ip.length = 4 then .v4 server.ip (server.port % 65536)
  else if server.ip.length = 16 then .v6 server.ip (server.port % 65536)
  else .unset

/-- GrpcLbClientStats: the per-serverlist client-stats object.  Only the
counters the verified claims touch are modelled: the calls-started
counter and the token-indexed drop counts (kept as the list of dropped
tokens; the count of a token is its multiplicity). -/
structure GrpcLbClientStats where
  num_calls_started : Nat
  dropped_tokens : List String
deriving DecidableEq, Repr

/-- GrpcLbClientStats::AddCallStarted(). -/
def GrpcLbClientStats.AddCallStarted (s : GrpcLbClientStats) : GrpcLbClientStats :=
  { s with num_calls_started := s.num_calls_started + 1 }

/-- GrpcLbClientStats::AddCallDropped(token). -/
def GrpcLbClientStats.AddCallDropped (s : GrpcLbClientStats) (token : String) :
    GrpcLbClientStats :=
  { s with dropped_tokens := token :: s.dropped_tokens }

/-- The per-token drop count recorded in a stats object. -/
def GrpcLbClientStats.dropCount (s : GrpcLbClientStats) (token : String) : Nat :=
  s.dropped_tokens.count token

/-- GrpcLb::Serverlist: the immutable entry vector plus the shared atomic
drop index.  The atomic is modelled by threading the serverlist value
through ShouldDrop. -/
structure Serverlist where
  serverlist : List GrpcLbServer
  drop_index : Nat
deriving DecidableEq, Repr

/-- GrpcLb::Serverlist::operator== compares only the entry vectors. -/
def Serverlist.eqOp (a b : Serverlist) : Prop :=
  a.serverlist = b.serverlist

instance : DecidablePred fun p : Serverlist × Serverlist => p.1.eqOp p.2 :=
  fun p => inferInstanceAs (Decidable (p.1.serverlist = p.2.serverlist))

instance (a b : Serverlist) : Decidable (a.eqOp b) :=
  inferInstanceAs (Decidable (a.serverlist = b.serverlist))

/-- const char* GrpcLb::Serverlist::ShouldDrop(): on an empty list return
null; otherwise fetch-and-increment the drop index and return the token
of the selected entry when it is a drop entry, else null.  Returns the
result together with the serverlist state after the atomic increment. -/
def Serverlist.ShouldDrop (sl : Serverlist) : Option String × Serverlist :=
  if sl.serverlist.isEmpty then (none, sl)
  else
    ((sl.serverlist[sl.drop_index % sl.serverlist.length]?).bind
        (fun server => if server.drop then some server.load_balance_token else none),
      { sl with drop_index := sl.drop_index + 1 })

/-- bool GrpcLb::Serverlist::ContainsAllDropEntries(). -/
def Serverlist.ContainsAllDropEntries (sl : Serverlist) : Bool :=
  if sl.serverlist.isEmpty then false
  else sl.serverlist.all (fun server => server.drop)

/-- GrpcLb::TokenAndClientStatsArg: the per-address channel-arg decoration
holding the LB token and the (possibly null) stats handle. -/
structure TokenAndClientStatsArg where
  lb_token : String
  client_stats : Option GrpcLbClientStats
deriving DecidableEq, Repr

/-- An EndpointAddresses as the policy hands it to the child: the resolved
address and the TokenAndClientStatsArg found in its per-address channel
args (none when the arg is absent). -/
structure EndpointAddresses where
  address : ResolvedAddress
  token_and_stats : Option TokenAndClientStatsArg
deriving DecidableEq, Repr

/-- GrpcLb::Serverlist::AddressIterator::ForEach: iterate the entries in
order, skip entries failing IsServerValid, and emit for each surviving
entry its parsed address with a channel arg carrying the entry's LB token
and the iterator's stats handle. -/
def addressIteratorForEach (entries : List GrpcLbServer)
    (client_stats : Option GrpcLbClientStats) : List EndpointAddresses :=
  entries.filterMap (fun server =>
    if IsServerValid server then
      some { address := ParseServer server,
             token_and_stats := some { lb_token := server.load_balance_token,
                                       client_stats := client_stats } }
    else none)

/-- GrpcLb::NullLbTokenEndpointIterator::ForEach: wrap every
resolver-supplied fallback endpoint so that its channel args carry the
empty-token, null-stats TokenAndClientStatsArg. -/
def nullLbTokenEndpointIteratorForEach (parent : List EndpointAddresses) :
    List EndpointAddresses :=
  parent.map (fun endpoint =>
    { endpoint with
      token_and_stats := some { lb_token := "", client_stats := none } })

/-- GrpcLb::SubchannelWrapper: the wrapped subchannel (an opaque id here)
decorated with the LB token and stats handle. -/
structure SubchannelWrapper where
  wrapped_subchannel : Nat
  lb_token : String
  client_stats : Option GrpcLbClientStats
deriving DecidableEq, Repr

/-- Result of GrpcLb::Helper::CreateSubchannel: null when shutting down,
a crash when the TokenAndClientStatsArg is missing, else the wrapper. -/
inductive CreateSubchannelResult where
  | nullSubchannel
  | crash
  | created (wrapper : SubchannelWrapper)
deriving DecidableEq, Repr

/-- GrpcLb::Helper::CreateSubchannel(address, per_address_args, args). -/
def helperCreateSubchannel (shutting_down : Bool) (wrapped : Nat)
    (per_address_arg : Option TokenAndClientStatsArg) : CreateSubchannelResult :=
  if shutting_down then .nullSubchannel
  else
    match per_address_arg with
    | none => .crash
    | some arg =>
        .created { wrapped_subchannel := wrapped, lb_token := arg.lb_token,
                   client_stats := arg.client_stats }

/-- Metadata key LbTokenMetadata::key(). -/
def lbTokenMetadataKey : String := "lb-token"

/-- Metadata key GrpcLbClientStatsMetadata::key(). -/
def grpclbClientStatsMetadataKey : String := "grpclb-client-stats"

/-- The placeholder for the opaque stats pointer encoded into metadata. -/
def statsPointerValue : String := "opaque-stats-pointer"

/-- The outcome of post-processing a complete pick from the child:
the unwrapped subchannel, the metadata mutations, whether a subchannel
call tracker is installed, and the wrapper's stats object after the
calls-started update (none when the wrapper has no stats). -/
structure CompletePickOutput where
  subchannel : Nat
  metadata : List (String × String)
  has_call_tracker : Bool
  wrapper_stats_after : Option GrpcLbClientStats
deriving DecidableEq, Repr

/-- The complete-pick branch of GrpcLb::Picker::Pick: when the wrapper
carries stats, install the stats-releasing SubchannelCallTracker, set the
grpclb-client-stats metadata entry and bump calls-started; when the LB
token is nonempty, set the lb-token metadata entry; finally unwrap the
subchannel.  `original_tracker` records whether the child already
installed a call tracker. -/
def processCompletePick (wrapper : SubchannelWrapper) (original_tracker : Bool) :
    CompletePickOutput :=
  let stage1 :=
    match wrapper.client_stats with
    | some stats =>
        ([(grpclbClientStatsMetadataKey, statsPointerValue)], true,
          some stats.AddCallStarted)
    | none => ([], original_tracker, none)
  let metadata2 :=
    if wrapper.lb_token ≠ "" then
      stage1.1 ++ [(lbTokenMetadataKey, wrapper.lb_token)]
    else stage1.1
  { subchannel := wrapper.wrapped_subchannel,
    metadata := metadata2,
    has_call_tracker := stage1.2.1,
    wrapper_stats_after := stage1.2.2 }

/-- The result the child picker hands back to GrpcLb::Picker::Pick. -/
inductive ChildPickResult where
  | complete (wrapper : SubchannelWrapper) (has_call_tracker : Bool)
  | queue
  | fail (status : AbslStatus)
  | drop (status : AbslStatus)
deriving DecidableEq, Repr

/-- The result GrpcLb::Picker::Pick returns to the channel. -/
inductive GrpcLbPickResult where
  | complete (out : CompletePickOutput)
  | queue
  | fail (status : AbslStatus)
  | drop (status : AbslStatus)
deriving DecidableEq, Repr

/-- Forwarding a pick to the child picker: a complete result is
post-processed, every other result is passed through unchanged. -/
def delegateToChild (child_result : ChildPickResult) : GrpcLbPickResult :=
  match child_result with
  | .complete wrapper tracker => .complete (processCompletePick wrapper tracker)
  | .queue => .queue
  | .fail status => .fail status
  | .drop status => .drop status

/-- GrpcLb::Picker: the (nullable) serverlist used for drops, and the
(nullable) stats object used for drop accounting.  The child picker is
modelled as the result it would return, passed into `pick`. -/
structure Picker where
  serverlist : Option Serverlist
  client_stats : Option GrpcLbClientStats
deriving DecidableEq, Repr

/-- The full observable outcome of one GrpcLb::Picker::Pick call. -/
structure PickOutput where
  result : GrpcLbPickResult
  consulted_child : Bool
  serverlist_after : Option Serverlist
  picker_stats_after : Option GrpcLbClientStats
deriving DecidableEq, Repr

/-- GrpcLb::PickResult GrpcLb::Picker::Pick(PickArgs args): consult
ShouldDrop when the serverlist is non-null; on a drop token record the
drop on the stats (when present) and return a Drop result with an
unavailable status without consulting the child; otherwise delegate. -/
def Picker.pick (p : Picker) (child_result : ChildPickResult) : PickOutput :=
  match p.serverlist with
  | some sl =>
      let dropped := sl.ShouldDrop
      match dropped.1 with
      | some token =>
          { result := .drop (.unavailable "drop directed by grpclb balancer"),
            consulted_child := false,
            serverlist_after := some dropped.2,
            picker_stats_after :=
              p.client_stats.map (fun s => s.AddCallDropped token) }
      | none =>
          { result := delegateToChild child_result,
            consulted_child := true,
            serverlist_after := some dropped.2,
            picker_stats_after := p.client_stats }
  | none =>
      { result := delegateToChild child_result,
        consulted_child := true,
        serverlist_after := none,
        picker_stats_after := p.client_stats }

/-- The fields of GrpcLb::BalancerCallState that the serialized policy
logic reads: whether an INITIAL response and whether a serverlist have
been received on this call. -/
structure CalldState where
  seen_initial_response : Bool
  seen_serverlist : Bool
deriving DecidableEq, Repr

/-- Modelled from the spec: the BackOff retry controller
(src/core/util/backoff.h is not part of this repository's sources).  Only
its interface matters to the policy: Reset() restarts the schedule and
NextAttemptDelay() yields the delay of the next attempt and advances the
schedule; the attempt counter stands for the controller's internal state
and the delay is identified by the attempt number it belongs to. -/
structure BackOff where
  attempts : Nat
deriving DecidableEq, Repr

/-- Modelled from the spec: BackOff::NextAttemptDelay() returns the
current schedule position's delay and advances the schedule. -/
def BackOff.NextAttemptDelay (b : BackOff) : Nat × BackOff :=
  (b.attempts + 1, { attempts := b.attempts + 1 })

/-- Modelled from the spec: BackOff::Reset(). -/
def BackOff.Reset (_b : BackOff) : BackOff :=
  { attempts := 0 }

/-- The externally visible actions a serialized policy operation emits:
child-policy updates (tagged with whether the addresses come from the
fallback list), timer and watcher operations, balancer-call starts,
re-resolution requests and balancer-channel operations. -/
inductive Action where
  | childPolicyUpdate (from_fallback : Bool)
  | cancelFallbackTimer
  | cancelConnectivityWatch
  | armFallbackTimer
  | startConnectivityWatch
  | startBalancerCall
  | armRetryTimer (delay : Nat)
  | resetBackoff
  | requestReresolution
  | createLbChannel
  | setFakeResolverResponse (balancer_addresses : List Nat)
deriving DecidableEq, Repr

/-- The policy state mutated under the work serializer (GrpcLb's fields):
the shutdown flag, whether the balancer channel exists, the current
balancer call, the retry-backoff state and retry timer, the current
serverlist, the fallback flags and startup-check timer/watcher, and the
child policy's existence and READY flag. -/
structure LbState where
  shutting_down : Bool
  lb_channel : Bool
  lb_calld : Option CalldState
  lb_call_backoff : BackOff
  retry_timer_armed : Bool
  serverlist : Option Serverlist
  fallback_mode : Bool
  fallback_at_startup_checks_pending : Bool
  fallback_timer_armed : Bool
  watcher_installed : Bool
  child_policy : Bool
  child_policy_ready : Bool
deriving DecidableEq, Repr

/-- GrpcLb::CreateOrUpdateChildPolicyLocked(): a no-op when shutting
down; otherwise create the child if needed and send it an update fed from
the fallback addresses when in fallback mode, else from the serverlist. -/
def createOrUpdateChildPolicyLocked (st : LbState) : LbState × List Action :=
  if st.shutting_down then (st, [])
  else ({ st with child_policy := true }, [.childPolicyUpdate st.fallback_mode])

/-- GrpcLb::MaybeEnterFallbackModeAfterStartup(): enter fallback mode when
not already in fallback, startup checks are not pending, there is no
balancer call or it has not seen a serverlist, and the child is not
READY. -/
def maybeEnterFallbackModeAfterStartup (st : LbState) : LbState × List Action :=
  if !st.fallback_mode && !st.fallback_at_startup_checks_pending &&
      (match st.lb_calld with
       | none => true
       | some c => !c.seen_serverlist) &&
      !st.child_policy_ready then
    createOrUpdateChildPolicyLocked { st with fallback_mode := true }
  else (st, [])

/-- GrpcLb::StartBalancerCallLocked(): a no-op when shutting down, else
install a fresh BalancerCallState and start its query. -/
def startBalancerCallLocked (st : LbState) : LbState × List Action :=
  if st.shutting_down then (st, [])
  else
    let fresh : CalldState :=
      { seen_initial_response := false, seen_serverlist := false }
    ({ st with lb_calld := some fresh }, [.startBalancerCall])

/-- GrpcLb::StartBalancerCallRetryTimerLocked(): arm the retry timer with
the backoff's next-attempt delay. -/
def startBalancerCallRetryTimerLocked (st : LbState) : LbState × List Action :=
  let next := st.lb_call_backoff.NextAttemptDelay
  ({ st with lb_call_backoff := next.2, retry_timer_armed := true },
    [.armRetryTimer next.1])

/-- GrpcLb::OnBalancerCallRetryTimerLocked(): clear the timer handle and
restart the balancer call only when not shutting down and no balancer
call exists. -/
def onBalancerCallRetryTimerLocked (st : LbState) : LbState × List Action :=
  let st0 := { st with retry_timer_armed := false }
  if !st0.shutting_down && st0.lb_calld.isNone then startBalancerCallLocked st0
  else (st0, [])

/-- GrpcLb::OnFallbackTimerLocked(): when the startup checks are still
pending and the policy is not shutting down, clear the flag, cancel the
connectivity watch, enter fallback mode and update the child policy. -/
def onFallbackTimerLocked (st : LbState) : LbState × List Action :=
  if st.fallback_at_startup_checks_pending && !st.shutting_down then
    let st1 := { st with fallback_at_startup_checks_pending := false,
                         watcher_installed := false, fallback_mode := true }
    let r := createOrUpdateChildPolicyLocked st1
    (r.1, .cancelConnectivityWatch :: r.2)
  else (st, [])

/-- The INITIAL case of OnBalancerMessageReceivedLocked: a second INITIAL
makes the whole message invalid and is ignored; the first records that an
initial response was seen (the report-interval bookkeeping is not needed
by the claims). -/
def onInitialResponseLocked (st : LbState) (c : CalldState) : LbState × List Action :=
  if c.seen_initial_response then (st, [])
  else ({ st with lb_calld := some { c with seen_initial_response := true } }, [])

/-- Whether an incoming entry vector is value-equal to the current
serverlist (the duplicate test of the SERVERLIST case). -/
def serverlistIsDuplicate (st : LbState) (entries : List GrpcLbServer) : Bool :=
  match st.serverlist with
  | none => false
  | some cur => cur.serverlist = entries

/-- The non-duplicate path of the SERVERLIST case: exit fallback mode if
set; if the startup checks are pending, clear the flag and cancel the
fallback timer and the connectivity watch; install the new serverlist
(with a fresh drop index) and update the child policy. -/
def installNewServerlistLocked (st : LbState) (entries : List GrpcLbServer) :
    LbState × List Action :=
  let startup :=
    if st.fallback_at_startup_checks_pending then
      ({ st with fallback_mode := false,
                 fallback_at_startup_checks_pending := false,
                 fallback_timer_armed := false, watcher_installed := false },
        [Action.cancelFallbackTimer, Action.cancelConnectivityWatch])
    else ({ st with fallback_mode := false }, ([] : List Action))
  let st2 := { startup.1 with
               serverlist := some { serverlist := entries, drop_index := 0 } }
  let r := createOrUpdateChildPolicyLocked st2
  (r.1, startup.2 ++ r.2)

/-- The SERVERLIST case of OnBalancerMessageReceivedLocked: record that a
serverlist was seen on this call, then drop the message when it is
value-equal to the current serverlist, else install it. -/
def onServerlistReceivedLocked (st : LbState) (c : CalldState)
    (entries : List GrpcLbServer) : LbState × List Action :=
  let st1 := { st with lb_calld := some { c with seen_serverlist := true } }
  if serverlistIsDuplicate st1 entries then (st1, [])
  else installNewServerlistLocked st1 entries

/-- The FALLBACK case of OnBalancerMessageReceivedLocked: when not
already in fallback, cancel the startup checks if pending, enter fallback
mode, update the child policy, and finally reset the current serverlist
so that a later identical serverlist is not misclassified as a
duplicate. -/
def onFallbackRequestedLocked (st : LbState) : LbState × List Action :=
  if st.fallback_mode then (st, [])
  else
    let startup :=
      if st.fallback_at_startup_checks_pending then
        ({ st with fallback_at_startup_checks_pending := false,
                   fallback_timer_armed := false, watcher_installed := false },
          [Action.cancelFallbackTimer, Action.cancelConnectivityWatch])
      else (st, ([] : List Action))
    let st2 := { startup.1 with fallback_mode := true }
    let r := createOrUpdateChildPolicyLocked st2
    ({ r.1 with serverlist := none }, startup.2 ++ r.2)

/-- GrpcLb::BalancerCallState::OnBalancerStatusReceivedLocked for the
case where this call is still the current one (`c` is its state): drop
the call; if startup checks are pending enter fallback immediately, else
run the post-startup fallback check; request re-resolution; then either
reset the backoff and restart the call at once (an INITIAL was seen) or
arm the retry timer with the backoff delay. -/
def onBalancerStatusReceivedLocked (st : LbState) (c : CalldState) :
    LbState × List Action :=
  let st0 := { st with lb_calld := none }
  let phase1 :=
    if st0.fallback_at_startup_checks_pending then
      let stA := { st0 with fallback_at_startup_checks_pending := false,
                            fallback_timer_armed := false,
                            watcher_installed := false, fallback_mode := true }
      let rA := createOrUpdateChildPolicyLocked stA
      (rA.1, [Action.cancelFallbackTimer, Action.cancelConnectivityWatch] ++ rA.2)
    else maybeEnterFallbackModeAfterStartup st0
  if c.seen_initial_response then
    let st2 := { phase1.1 with lb_call_backoff := phase1.1.lb_call_backoff.Reset }
    let r := startBalancerCallLocked st2
    (r.1, phase1.2 ++ [Action.requestReresolution, Action.resetBackoff] ++ r.2)
  else
    let r := startBalancerCallRetryTimerLocked phase1.1
    (r.1, phase1.2 ++ [Action.requestReresolution] ++ r.2)

/-- GrpcLb::StateWatcher::OnConnectivityStateChange for the balancer
channel (`tf` is whether the new state is TRANSIENT_FAILURE): while the
startup checks are pending, a TRANSIENT_FAILURE report cancels the
fallback timer, enters fallback mode, updates the child policy and
cancels the watch. -/
def onBalancerChannelStateChangedLocked (st : LbState) (tf : Bool) :
    LbState × List Action :=
  if st.fallback_at_startup_checks_pending && tf then
    let st1 := { st with fallback_at_startup_checks_pending := false,
                         fallback_timer_armed := false, fallback_mode := true }
    let r := createOrUpdateChildPolicyLocked st1
    ({ r.1 with watcher_installed := false },
      [Action.cancelFallbackTimer] ++ r.2 ++ [Action.cancelConnectivityWatch])
  else (st, [])

/-- GrpcLb::Helper::UpdateState (the policy-state part): ignore when
shutting down; record whether the child reports READY and run the
post-startup fallback check.  (The picker it synthesizes is modelled
separately by Picker.pick.) -/
def helperUpdateState (st : LbState) (ready : Bool) : LbState × List Action :=
  if st.shutting_down then (st, [])
  else maybeEnterFallbackModeAfterStartup { st with child_policy_ready := ready }

/-- GrpcLb::UpdateBalancerChannelLocked(): an unavailable status when the
resolver-supplied balancer address list is empty; the balancer channel is
created on the first update regardless, and the balancer address list is
pushed through the fake resolver response generator regardless. -/
def updateBalancerChannelLocked (st : LbState) (balancer_addresses : List Nat) :
    LbState × List Action × AbslStatus :=
  let status :=
    if balancer_addresses.isEmpty then
      AbslStatus.unavailable "balancer address list must be non-empty"
    else AbslStatus.ok
  let chan :=
    if st.lb_channel then (st, ([] : List Action))
    else ({ st with lb_channel := true }, [Action.createLbChannel])
  (chan.1, chan.2 ++ [Action.setFakeResolverResponse balancer_addresses], status)

/-- absl::Status GrpcLb::UpdateLocked(UpdateArgs args): update the
balancer channel, update an existing child policy, and on the initial
update start the startup-fallback checks (flag, timer, watcher) and the
balancer call.  Returns the status from the balancer-channel update. -/
def updateLocked (st : LbState) (balancer_addresses : List Nat) :
    LbState × List Action × AbslStatus :=
  let is_initial_update := !st.lb_channel
  let chan := updateBalancerChannelLocked st balancer_addresses
  let child :=
    if chan.1.child_policy then createOrUpdateChildPolicyLocked chan.1
    else (chan.1, ([] : List Action))
  let started :=
    if is_initial_update then
      let stA := { child.1 with fallback_at_startup_checks_pending := true,
                                fallback_timer_armed := true,
                                watcher_installed := true }
      let rA := startBalancerCallLocked stA
      (rA.1, [Action.armFallbackTimer, Action.startConnectivityWatch] ++ rA.2)
    else (child.1, ([] : List Action))
  (started.1, chan.2.1 ++ child.2 ++ started.2, chan.2.2)

/-- GrpcLb::ShutdownLocked(): set the shutdown flag, drop the balancer
call, cancel the retry timer, cancel the startup checks if pending, drop
the child policy and the balancer channel. -/
def shutdownLocked (st : LbState) : LbState × List Action :=
  let st1 := { st with shutting_down := true, lb_calld := none,
                       retry_timer_armed := false }
  let startup :=
    if st1.fallback_at_startup_checks_pending then
      ({ st1 with fallback_at_startup_checks_pending := false,
                  fallback_timer_armed := false, watcher_installed := false },
        [Action.cancelFallbackTimer, Action.cancelConnectivityWatch])
    else (st1, ([] : List Action))
  ({ startup.1 with child_policy := false, lb_channel := false }, startup.2)

/-- The events driving the serialized control loop.  Balancer-call
completions are delivered to the current call; a callback from a call
that is no longer current only releases its ref (modelled as a no-op, the
`this == lb_calld_` identity check). -/
inductive LbEvent where
  | update (balancer_addresses : List Nat)
  | initialResponse
  | serverlistReceived (entries : List GrpcLbServer)
  | fallbackRequested
  | balancerStatusReceived
  | fallbackTimerFired
  | retryTimerFired
  | channelTransientFailure
  | childStateUpdate (ready : Bool)
  | shutdown
deriving DecidableEq, Repr

/-- One serialized step of the policy: dispatch an event to the handler
it trampolines to, returning the new policy state and the emitted
actions. -/
def step (st : LbState) (e : LbEvent) : LbState × List Action :=
  match e with
  | .update addrs =>
      let r := updateLocked st addrs
      (r.1, r.2.1)
  | .initialResponse =>
      match st.lb_calld with
      | none => (st, [])
      | some c => onInitialResponseLocked st c
  | .serverlistReceived entries =>
      match st.lb_calld with
      | none => (st, [])
      | some c => onServerlistReceivedLocked st c entries
  | .fallbackRequested =>
      match st.lb_calld with
      | none => (st, [])
      | some _ => onFallbackRequestedLocked st
  | .balancerStatusReceived =>
      match st.lb_calld with
      | none => (st, [])
      | some c => onBalancerStatusReceivedLocked st c
  | .fallbackTimerFired =>
      if st.fallback_timer_armed then
        onFallbackTimerLocked { st with fallback_timer_armed := false }
      else (st, [])
  | .retryTimerFired =>
      if st.retry_timer_armed then onBalancerCallRetryTimerLocked st
      else (st, [])
  | .channelTransientFailure => onBalancerChannelStateChangedLocked st true
  | .childStateUpdate ready => helperUpdateState st ready
  | .shutdown => shutdownLocked st

/-- Running a sequence of events from a state. -/
def run (st : LbState) (events : List LbEvent) : LbState :=
  events.foldl (fun s e => (step s e).1) st

/-- Whether an action is a child-policy update. -/
def Action.isChildUpdate : Action → Bool
  | .childPolicyUpdate _ => true
  | _ => false

/-- The number of child-policy updates among a list of emitted actions. -/
def countChildUpdates (actions : List Action) : Nat :=
  (actions.filter Action.isChildUpdate).length

/-- A concrete drop entry used as a test input. -/
def exDropServer : GrpcLbServer :=
  { ip := [], port := 0, load_balance_token := "tokx", drop := false }

/-- A concrete backend entry used as a test input. -/
def exBackendServer : GrpcLbServer :=
  { ip := [10, 0, 0, 1], port := 80, load_balance_token := "tokb", drop := false }

/-- A concrete empty stats object used as a test input. -/
def exStats : GrpcLbClientStats := { num_calls_started := 0, dropped_tokens := [] }

/-- The address iterator emits exactly the image of the IsServerValid
filter of the entries, in order. -/
theorem addressIteratorForEach_eq (entries : List GrpcLbServer)
    (stats : Option GrpcLbClientStats) :
    addressIteratorForEach entries stats =
      (entries.filter (fun s => IsServerValid s)).map (fun s =>
        ({ address := ParseServer s,
           token_and_stats := some { lb_token := s.load_balance_token,
                                     client_stats := stats } } : EndpointAddresses)) := by
  induction entries with
  | nil => rfl
  | cons hd tl ih =>
      unfold addressIteratorForEach at ih ⊢
      by_cases h : IsServerValid hd <;>
        simp [List.filterMap_cons, List.filter_cons, h, ih]

/-- C1: For every Serverlist, if the entry vector is empty then ShouldDrop
returns null and leaves the drop index unchanged; otherwise each call leaves
the entries unchanged, increments the drop index by exactly one, and returns
the lb_token of the entry at (old drop index mod length) when that entry is a
drop entry and null when it is not. -/
theorem C1_ShouldDrop_correct (sl : Serverlist) :
    (sl.serverlist = [] → sl.ShouldDrop = (none, sl)) ∧
    (sl.serverlist ≠ [] →
      (sl.ShouldDrop).2.serverlist = sl.serverlist ∧
      (sl.ShouldDrop).2.drop_index = sl.drop_index + 1 ∧
      ∃ server,
        sl.serverlist[sl.drop_index % sl.serverlist.length]? = some server ∧
        (sl.ShouldDrop).1 =
          (if server.drop then some server.load_balance_token else none)) := by
  constructor
  · intro h
    simp [Serverlist.ShouldDrop, h]
  · intro h
    have hlen : 0 < sl.serverlist.length := List.length_pos.mpr h
    have hne : sl.serverlist.isEmpty = false := by
      simpa [List.isEmpty_iff] using h
    have hidx : sl.drop_index % sl.serverlist.length < sl.serverlist.length :=
      Nat.mod_lt _ hlen
    refine ⟨by simp [Serverlist.ShouldDrop, hne], by simp [Serverlist.ShouldDrop, hne], ?_⟩
    exact ⟨sl.serverlist[sl.drop_index % sl.serverlist.length],
      List.getElem?_eq_getElem hidx,
      by simp [Serverlist.ShouldDrop, hne, List.getElem?_eq_getElem hidx]⟩

/-- Witness for C1: the nonempty case evaluated at a concrete two-entry
serverlist with drop index 4. -/
theorem C1_ShouldDrop_witness :
    ((Serverlist.mk [{ exDropServer with drop := true }, exBackendServer] 4).serverlist ≠ []) ∧
    ((Serverlist.mk [{ exDropServer with drop := true }, exBackendServer] 4).ShouldDrop).2.serverlist
        = [{ exDropServer with drop := true }, exBackendServer] ∧
    ((Serverlist.mk [{ exDropServer with drop := true }, exBackendServer] 4).ShouldDrop).2.drop_index = 5 ∧
    ∃ server,
      ([{ exDropServer with drop := true }, exBackendServer] :
          List GrpcLbServer)[4 % 2]? = some server ∧
      ((Serverlist.mk [{ exDropServer with drop := true }, exBackendServer] 4).ShouldDrop).1 =
        (if server.drop then some server.load_balance_token else none) :=
  ⟨by decide,
    (C1_ShouldDrop_correct
      (Serverlist.mk [{ exDropServer with drop := true }, exBackendServer] 4)).2 (by decide)⟩

/-- C7: For every pick, a non-null serverlist whose ShouldDrop yields a token
makes the picker record the drop on its stats (when present) and return a
Drop result with an unavailable status without consulting the child; when
ShouldDrop yields null, or the serverlist is null, the pick is delegated to
the child picker, so a null-serverlist picker only returns a drop if the
child itself did; recording a drop increments that token's drop count by
one. -/
theorem C7_Picker_Pick_correct (p : Picker) (child : ChildPickResult) :
    (∀ sl token sl2, p.serverlist = some sl → sl.ShouldDrop = (some token, sl2) →
      (p.pick child).result =
          .drop (.unavailable "drop directed by grpclb balancer") ∧
      (p.pick child).consulted_child = false ∧
      (∀ stats, p.client_stats = some stats →
        (p.pick child).picker_stats_after = some (stats.AddCallDropped token)) ∧
      (p.client_stats = none → (p.pick child).picker_stats_after = none)) ∧
    (∀ sl sl2, p.serverlist = some sl → sl.ShouldDrop = (none, sl2) →
      (p.pick child).consulted_child = true ∧
      (p.pick child).result = delegateToChild child) ∧
    (p.serverlist = none →
      (p.pick child).consulted_child = true ∧
      (p.pick child).result = delegateToChild child ∧
      (∀ s, (p.pick child).result = .drop s → child = .drop s)) ∧
    (∀ stats token,
      (GrpcLbClientStats.AddCallDropped stats token).dropCount token =
        stats.dropCount token + 1) := by
  refine ⟨?_, ?_, ?_, ?_⟩
  · intro sl token sl2 hsl hdrop
    refine ⟨by simp [Picker.pick, hsl, hdrop], by simp [Picker.pick, hsl, hdrop], ?_, ?_⟩
    · intro stats hs
      simp [Picker.pick, hsl, hdrop, hs]
    · intro hs
      simp [Picker.pick, hsl, hdrop, hs]
  · intro sl sl2 hsl hdrop
    exact ⟨by simp [Picker.pick, hsl, hdrop], by simp [Picker.pick, hsl, hdrop]⟩
  · intro hsl
    refine ⟨by simp [Picker.pick, hsl], by simp [Picker.pick, hsl], ?_⟩
    intro s hres
    simp only [Picker.pick, hsl] at hres
    cases child <;> simp_all [delegateToChild]
  · intro stats token
    simp [GrpcLbClientStats.AddCallDropped, GrpcLbClientStats.dropCount]

/-- Witness for C7: the drop branch evaluated at a concrete picker holding a
single-drop-entry serverlist and a stats object. -/
theorem C7_Picker_Pick_witness :
    ((Picker.mk (some (Serverlist.mk [{ exDropServer with drop := true }] 0))
        (some exStats)).pick ChildPickResult.queue).result =
      .drop (.unavailable "drop directed by grpclb balancer") :=
  ((C7_Picker_Pick_correct
      (Picker.mk (some (Serverlist.mk [{ exDropServer with drop := true }] 0))
        (some exStats)) ChildPickResult.queue).1
    (Serverlist.mk [{ exDropServer with drop := true }] 0) "tokx"
    (Serverlist.mk [{ exDropServer with drop := true }] 1) rfl (by decide)).1

/-- C8: The serverlist address iterator emits, in order, exactly the entries
that are non-drop with IP length 4 or 16 and a port whose high 16 bits are
zero; skipped entries stay in the entry vector, and serverlist equality
compares the full entry vectors, so two serverlists with identical iteration
output can still be unequal. -/
theorem C8_iteration_and_equality (entries other : List GrpcLbServer)
    (stats : Option GrpcLbClientStats) :
    (addressIteratorForEach entries stats =
      (entries.filter (fun s => IsServerValid s)).map (fun s =>
        ({ address := ParseServer s,
           token_and_stats := some { lb_token := s.load_balance_token,
                                     client_stats := stats } } : EndpointAddresses))) ∧
    (∀ s : GrpcLbServer, IsServerValid s = true ↔
      (s.drop = false ∧ s.port >>> 16 = 0 ∧
        (s.ip.length = 4 ∨ s.ip.length = 16))) ∧
    (∀ di dj : Nat,
      (Serverlist.mk entries di).eqOp (Serverlist.mk other dj) ↔ entries = other) ∧
    (∃ a b : Serverlist,
      addressIteratorForEach a.serverlist none =
        addressIteratorForEach b.serverlist none ∧ ¬ a.eqOp b) := by
  refine ⟨addressIteratorForEach_eq entries stats, ?_, ?_, ?_⟩
  · intro s
    rcases s with ⟨ip, port, tok, drop⟩
    cases drop <;> simp [IsServerValid]
  · intro di dj
    simp [Serverlist.eqOp]
  · refine ⟨Serverlist.mk [{ exDropServer with drop := true }] 0,
      Serverlist.mk [] 0, rfl, ?_⟩
    simp [Serverlist.eqOp]

/-- Witness for C8: the validity characterization evaluated at the concrete
backend entry. -/
theorem C8_iteration_witness :
    IsServerValid exBackendServer = true ↔
      (exBackendServer.drop = false ∧ exBackendServer.port >>> 16 = 0 ∧
        (exBackendServer.ip.length = 4 ∨ exBackendServer.ip.length = 16)) :=
  (C8_iteration_and_equality [] [] none).2.1 exBackendServer

/-- C9: Every endpoint produced by the serverlist address iterator carries a
TokenAndClientStatsArg holding the entry's token and the current stats
handle, every fallback endpoint wrapped by NullLbTokenEndpointIterator
carries the empty-token null-stats arg, and Helper::CreateSubchannel never
reaches its crash branch on any such endpoint. -/
theorem C9_token_and_stats_arg_present (entries : List GrpcLbServer)
    (stats : Option GrpcLbClientStats) (parent : List EndpointAddresses) :
    (∀ ep ∈ addressIteratorForEach entries stats,
      ∃ server, server ∈ entries ∧ IsServerValid server = true ∧
        ep.token_and_stats =
          some { lb_token := server.load_balance_token, client_stats := stats }) ∧
    (∀ ep ∈ nullLbTokenEndpointIteratorForEach parent,
      ep.token_and_stats = some { lb_token := "", client_stats := none }) ∧
    (∀ ep sub sd,
      (ep ∈ addressIteratorForEach entries stats ∨
        ep ∈ nullLbTokenEndpointIteratorForEach parent) →
      helperCreateSubchannel sd sub ep.token_and_stats ≠ .crash) := by
  have hmem : ∀ ep ∈ addressIteratorForEach entries stats,
      ∃ server, server ∈ entries ∧ IsServerValid server = true ∧
        ep.token_and_stats =
          some { lb_token := server.load_balance_token, client_stats := stats } := by
    intro ep hep
    unfold addressIteratorForEach at hep
    rw [List.mem_filterMap] at hep
    obtain ⟨server, hs, hf⟩ := hep
    by_cases hv : IsServerValid server
    · refine ⟨server, hs, hv, ?_⟩
      simp [hv] at hf
      simp [← hf]
    · simp [hv] at hf
  have hnull : ∀ ep ∈ nullLbTokenEndpointIteratorForEach parent,
      ep.token_and_stats = some { lb_token := "", client_stats := none } := by
    intro ep hep
    unfold nullLbTokenEndpointIteratorForEach at hep
    rw [List.mem_map] at hep
    obtain ⟨orig, _, hf⟩ := hep
    simp [← hf]
  refine ⟨hmem, hnull, ?_⟩
  intro ep sub sd hcases
  have harg : ∃ arg, ep.token_and_stats = some arg := by
    rcases hcases with h | h
    · obtain ⟨server, _, _, hval⟩ := hmem ep h
      exact ⟨_, hval⟩
    · exact ⟨_, hnull ep h⟩
  obtain ⟨arg, harg⟩ := harg
  cases sd <;> simp [helperCreateSubchannel, harg]

/-- Witness for C9: no-crash evaluated at the endpoint produced from the
concrete backend entry. -/
theorem C9_token_and_stats_witness :
    helperCreateSubchannel false 7
        (EndpointAddresses.mk (ParseServer exBackendServer)
          (some { lb_token := "tokb", client_stats := none })).token_and_stats ≠
      CreateSubchannelResult.crash :=
  (C9_token_and_stats_arg_present [exBackendServer] none []).2.2
    (EndpointAddresses.mk (ParseServer exBackendServer)
      (some { lb_token := "tokb", client_stats := none })) 7 false
    (Or.inl (by decide))

/-- C10: On a complete delegated pick, the lb-token metadata entry is set iff
the wrapper's LB token is nonempty (and then carries that token), while the
grpclb-client-stats metadata entry, the call tracker and the calls-started
increment are installed exactly when the wrapper carries a non-null stats
object, independently of the token; the subchannel is unwrapped. -/
theorem C10_complete_pick_metadata (wrapper : SubchannelWrapper) (orig : Bool) :
    ((∃ v, (lbTokenMetadataKey, v) ∈ (processCompletePick wrapper orig).metadata)
        ↔ wrapper.lb_token ≠ "") ∧
    (wrapper.lb_token ≠ "" →
      (lbTokenMetadataKey, wrapper.lb_token) ∈
        (processCompletePick wrapper orig).metadata) ∧
    (∀ stats, wrapper.client_stats = some stats →
      (grpclbClientStatsMetadataKey, statsPointerValue) ∈
          (processCompletePick wrapper orig).metadata ∧
      (processCompletePick wrapper orig).has_call_tracker = true ∧
      (processCompletePick wrapper orig).wrapper_stats_after =
        some stats.AddCallStarted ∧
      stats.AddCallStarted.num_calls_started = stats.num_calls_started + 1) ∧
    (wrapper.client_stats = none →
      (∀ v, (grpclbClientStatsMetadataKey, v) ∉
          (processCompletePick wrapper orig).metadata) ∧
      (processCompletePick wrapper orig).has_call_tracker = orig ∧
      (processCompletePick wrapper orig).wrapper_stats_after = none) ∧
    (processCompletePick wrapper orig).subchannel = wrapper.wrapped_subchannel := by
  have hkeys : lbTokenMetadataKey ≠ grpclbClientStatsMetadataKey := by decide
  refine ⟨?_, ?_, ?_, ?_, ?_⟩
  · constructor
    · rintro ⟨v, hv⟩
      intro hemp
      cases hstats : wrapper.client_stats <;>
        simp [processCompletePick, hemp, hstats, hkeys] at hv
    · intro hne
      cases hstats : wrapper.client_stats <;>
        exact ⟨wrapper.lb_token, by simp [processCompletePick, hne, hstats]⟩
  · intro hne
    cases hstats : wrapper.client_stats <;>
      simp [processCompletePick, hne, hstats]
  · intro stats hstats
    by_cases hne : wrapper.lb_token = "" <;>
      simp [processCompletePick, hne, hstats, GrpcLbClientStats.AddCallStarted]
  · intro hstats
    refine ⟨?_, ?_, ?_⟩
    · intro v
      by_cases hne : wrapper.lb_token = "" <;>
        simp [processCompletePick, hne, hstats, hkeys.symm]
    · by_cases hne : wrapper.lb_token = "" <;>
        simp [processCompletePick, hne, hstats]
    · by_cases hne : wrapper.lb_token = "" <;>
        simp [processCompletePick, hne, hstats]
  · cases hstats : wrapper.client_stats <;>
      by_cases hne : wrapper.lb_token = "" <;>
        simp [processCompletePick, hne, hstats]

/-- Witness for C10: the stats branch evaluated at a concrete wrapper with a
nonempty token and a stats object. -/
theorem C10_complete_pick_witness :
    (grpclbClientStatsMetadataKey, statsPointerValue) ∈
      (processCompletePick (SubchannelWrapper.mk 3 "tokb" (some exStats)) false).metadata :=
  ((C10_complete_pick_metadata (SubchannelWrapper.mk 3 "tokb" (some exStats)) false).2.2.1
    exStats rfl).1

/-- A concrete policy state used as a test input: past the initial update
(balancer channel exists), startup checks resolved, a balancer call in
flight that has not yet seen anything. -/
def exLiveState : LbState :=
  { shutting_down := false, lb_channel := true,
    lb_calld := some { seen_initial_response := false, seen_serverlist := false },
    lb_call_backoff := { attempts := 0 }, retry_timer_armed := false,
    serverlist := none, fallback_mode := false,
    fallback_at_startup_checks_pending := false, fallback_timer_armed := false,
    watcher_installed := false, child_policy := false,
    child_policy_ready := false }

/-- A concrete policy state used as a test input: just after the initial
update, with the startup fallback checks pending. -/
def exStartupState : LbState :=
  { exLiveState with fallback_at_startup_checks_pending := true,
                     fallback_timer_armed := true, watcher_installed := true }

/-- A concrete fresh policy state (before any update). -/
def exInitialState : LbState :=
  { exLiveState with lb_channel := false, lb_calld := none }

/-- C4: For any non-shutting-down state, MaybeEnterFallbackModeAfterStartup
enters fallback mode — setting the flag and issuing a child-policy update fed
from the fallback addresses — iff the policy is not already in fallback mode,
the startup checks are not pending, there is no balancer call or it has not
seen a serverlist, and the child is not READY; otherwise it is a no-op.  The
check is exactly what a child-policy state update runs after recording the
child's READY bit. -/
theorem C4_post_startup_fallback_check (st : LbState)
    (hsd : st.shutting_down = false) :
    (((maybeEnterFallbackModeAfterStartup st).1.fallback_mode = true ∧
        Action.childPolicyUpdate true ∈ (maybeEnterFallbackModeAfterStartup st).2)
      ↔ (st.fallback_mode = false ∧
         st.fallback_at_startup_checks_pending = false ∧
         (st.lb_calld = none ∨
           ∃ c, st.lb_calld = some c ∧ c.seen_serverlist = false) ∧
         st.child_policy_ready = false)) ∧
    (¬ (st.fallback_mode = false ∧
         st.fallback_at_startup_checks_pending = false ∧
         (st.lb_calld = none ∨
           ∃ c, st.lb_calld = some c ∧ c.seen_serverlist = false) ∧
         st.child_policy_ready = false) →
      maybeEnterFallbackModeAfterStartup st = (st, [])) ∧
    (∀ ready, step st (.childStateUpdate ready) =
      maybeEnterFallbackModeAfterStartup { st with child_policy_ready := ready }) := by
  obtain ⟨sd, chan, calld, backoff, retry, slist, fm, pend, ft, w, cp, cpr⟩ := st
  simp only at hsd
  subst hsd
  refine ⟨?_, ?_, ?_⟩
  · cases fm <;> cases pend <;> cases cpr <;>
      cases calld <;>
        simp [maybeEnterFallbackModeAfterStartup, createOrUpdateChildPolicyLocked]
    rename_i c
    cases hc : c.seen_serverlist <;> simp [hc]
  · intro hcond
    cases fm <;> cases pend <;> cases cpr <;>
      (try (cases calld)) <;>
        simp_all [maybeEnterFallbackModeAfterStartup,
          createOrUpdateChildPolicyLocked]
  · intro ready
    simp [step, helperUpdateState]

/-- Witness for C4: the check evaluated at the concrete live state (balancer
call present, no serverlist seen, child not READY) does enter fallback. -/
theorem C4_post_startup_fallback_witness :
    ((maybeEnterFallbackModeAfterStartup exLiveState).1.fallback_mode = true ∧
      Action.childPolicyUpdate true ∈ (maybeEnterFallbackModeAfterStartup exLiveState).2) ↔
    (exLiveState.fallback_mode = false ∧
     exLiveState.fallback_at_startup_checks_pending = false ∧
     (exLiveState.lb_calld = none ∨
       ∃ c, exLiveState.lb_calld = some c ∧ c.seen_serverlist = false) ∧
     exLiveState.child_policy_ready = false) :=
  (C4_post_startup_fallback_check exLiveState (by decide)).1

/-- C5: When the trailing status arrives for the current balancer call and
the policy is not shutting down: if the call had seen an INITIAL response the
backoff is reset and a new call is started immediately (no retry timer is
armed); otherwise the call is dropped, the retry timer is armed with the
backoff's next-attempt delay, and no call is started; the retry timer, when
it fires, starts a call exactly when no balancer call exists and the policy
is not shutting down. -/
theorem C5_retry_on_balancer_status (st : LbState) (c : CalldState)
    (hcall : st.lb_calld = some c) (hsd : st.shutting_down = false) :
    (c.seen_initial_response = true →
      Action.resetBackoff ∈ (step st .balancerStatusReceived).2 ∧
      Action.startBalancerCall ∈ (step st .balancerStatusReceived).2 ∧
      (∀ d, Action.armRetryTimer d ∉ (step st .balancerStatusReceived).2) ∧
      (step st .balancerStatusReceived).1.lb_call_backoff =
        BackOff.Reset st.lb_call_backoff ∧
      (step st .balancerStatusReceived).1.lb_calld =
        some { seen_initial_response := false, seen_serverlist := false }) ∧
    (c.seen_initial_response = false →
      (step st .balancerStatusReceived).1.lb_calld = none ∧
      (step st .balancerStatusReceived).1.retry_timer_armed = true ∧
      Action.armRetryTimer (st.lb_call_backoff.NextAttemptDelay).1 ∈
        (step st .balancerStatusReceived).2 ∧
      Action.startBalancerCall ∉ (step st .balancerStatusReceived).2 ∧
      Action.resetBackoff ∉ (step st .balancerStatusReceived).2) ∧
    (∀ st2 : LbState,
      Action.startBalancerCall ∈ (step st2 .retryTimerFired).2 ↔
        (st2.retry_timer_armed = true ∧ st2.shutting_down = false ∧
          st2.lb_calld = none)) := by
  obtain ⟨sd, chan, calld, backoff, retry, slist, fm, pend, ft, w, cp, cpr⟩ := st
  simp only at hsd hcall
  subst hsd
  subst hcall
  refine ⟨?_, ?_, ?_⟩
  · intro hseen
    cases pend <;> cases fm <;> cases cpr <;>
      simp_all [step, onBalancerStatusReceivedLocked,
        maybeEnterFallbackModeAfterStartup, createOrUpdateChildPolicyLocked,
        startBalancerCallLocked, startBalancerCallRetryTimerLocked,
        BackOff.NextAttemptDelay, BackOff.Reset]
  · intro hseen
    cases pend <;> cases fm <;> cases cpr <;>
      simp_all [step, onBalancerStatusReceivedLocked,
        maybeEnterFallbackModeAfterStartup, createOrUpdateChildPolicyLocked,
        startBalancerCallLocked, startBalancerCallRetryTimerLocked,
        BackOff.NextAttemptDelay, BackOff.Reset]
  · intro st2
    obtain ⟨sd2, chan2, calld2, backoff2, retry2, slist2, fm2, pend2, ft2, w2, cp2, cpr2⟩ := st2
    cases retry2 <;> cases sd2 <;> cases calld2 <;>
      simp [step, onBalancerCallRetryTimerLocked, startBalancerCallLocked]

/-- Witness for C5: the no-INITIAL branch evaluated at the concrete live
state arms the retry timer with the backoff's next delay. -/
theorem C5_retry_witness :
    Action.armRetryTimer (exLiveState.lb_call_backoff.NextAttemptDelay).1 ∈
      (step exLiveState .balancerStatusReceived).2 :=
  ((C5_retry_on_balancer_status exLiveState
      { seen_initial_response := false, seen_serverlist := false }
      rfl rfl).2.1 rfl).2.2.1

/-- C6 counterexample: on the initial update with an empty balancer-address
list, Update does return the unavailable status, but balancer-channel
actions are still taken: the balancer channel is created and the empty
address list is pushed through the fake resolver response generator.  This
refutes the claim's clause that no balancer channel action is taken. -/
theorem C6_empty_addresses_counterexample :
    (updateLocked exInitialState []).2.2 =
        AbslStatus.unavailable "balancer address list must be non-empty" ∧
    Action.createLbChannel ∈ (updateLocked exInitialState []).2.1 ∧
    Action.setFakeResolverResponse [] ∈ (updateLocked exInitialState []).2.1 := by
  decide

/-- C6 (amended): Update returns an error status iff the resolver-supplied
balancer address list is empty, and then the status is unavailable; with at
least one balancer address it returns OK.  In every case — including the
empty one — the balancer address list is pushed through the fake resolver,
and on the first update the balancer channel is created. -/
theorem C6_update_status (st : LbState) (addrs : List Nat) :
    ((updateLocked st addrs).2.2 ≠ AbslStatus.ok ↔ addrs = []) ∧
    (addrs = [] →
      (updateLocked st addrs).2.2 =
        AbslStatus.unavailable "balancer address list must be non-empty") ∧
    (addrs ≠ [] → (updateLocked st addrs).2.2 = AbslStatus.ok) ∧
    Action.setFakeResolverResponse addrs ∈ (updateLocked st addrs).2.1 ∧
    (st.lb_channel = false →
      Action.createLbChannel ∈ (updateLocked st addrs).2.1) := by
  obtain ⟨sd, chan, calld, backoff, retry, slist, fm, pend, ft, w, cp, cpr⟩ := st
  cases addrs <;> cases chan <;> cases sd <;> cases cp <;>
    simp [updateLocked, updateBalancerChannelLocked,
      createOrUpdateChildPolicyLocked, startBalancerCallLocked]

/-- Witness for C6: the non-empty branch evaluated at the concrete fresh
state returns OK. -/
theorem C6_update_status_witness :
    (([3] : List Nat) ≠ []) ∧ (updateLocked exInitialState [3]).2.2 = AbslStatus.ok :=
  ⟨by decide, (C6_update_status exInitialState [3]).2.2.1 (by decide)⟩

/-- C2: Delivering a SERVERLIST that is not value-equal to the current one
produces exactly one child-policy update; delivering the same entries again
immediately afterwards is suppressed as a duplicate (zero updates), so the
pair produces exactly one; but if a balancer-commanded FALLBACK intervenes —
which clears the current serverlist — redelivering the same entries is not
treated as a duplicate and produces a child-policy update again. -/
theorem C2_duplicate_suppression (st : LbState) (c : CalldState)
    (entries : List GrpcLbServer)
    (hcall : st.lb_calld = some c) (hsd : st.shutting_down = false)
    (hnew : serverlistIsDuplicate st entries = false) :
    countChildUpdates (step st (.serverlistReceived entries)).2 = 1 ∧
    countChildUpdates
      (step (step st (.serverlistReceived entries)).1
        (.serverlistReceived entries)).2 = 0 ∧
    countChildUpdates
      (step (step (step st (.serverlistReceived entries)).1 .fallbackRequested).1
        (.serverlistReceived entries)).2 = 1 := by
  obtain ⟨sd, chan, calld, backoff, retry, slist, fm, pend, ft, w, cp, cpr⟩ := st
  simp only at hsd hcall hnew
  subst hsd
  subst hcall
  cases slist with
  | none =>
      cases pend <;> cases fm <;>
        simp [step, onServerlistReceivedLocked, serverlistIsDuplicate,
          installNewServerlistLocked, createOrUpdateChildPolicyLocked,
          onFallbackRequestedLocked, countChildUpdates, Action.isChildUpdate,
          List.filter]
  | some cur =>
      have hne : ¬ cur.serverlist = entries := by
        by_contra hc2
        simp [serverlistIsDuplicate, hc2] at hnew
      cases pend <;> cases fm <;>
        simp [step, onServerlistReceivedLocked, serverlistIsDuplicate,
          installNewServerlistLocked, createOrUpdateChildPolicyLocked,
          onFallbackRequestedLocked, countChildUpdates, Action.isChildUpdate,
          List.filter, hne]

/-- Witness for C2: the sequence evaluated at the concrete startup state with
a one-entry serverlist. -/
theorem C2_duplicate_suppression_witness :
    countChildUpdates
      (step exStartupState (.serverlistReceived [exBackendServer])).2 = 1 ∧
    countChildUpdates
      (step (step exStartupState (.serverlistReceived [exBackendServer])).1
        (.serverlistReceived [exBackendServer])).2 = 0 ∧
    countChildUpdates
      (step (step (step exStartupState
            (.serverlistReceived [exBackendServer])).1 .fallbackRequested).1
        (.serverlistReceived [exBackendServer])).2 = 1 :=
  C2_duplicate_suppression exStartupState
    { seen_initial_response := false, seen_serverlist := false }
    [exBackendServer] rfl rfl (by decide)

/-- The invariant behind C3: the startup checks are resolved and the
balancer channel exists (so no later update is the initial one), or the
policy is already on the dead shutdown path (where the fallback-timer
callback refuses to act).  Once true, no reachable state lets the fallback
timer enter fallback mode. -/
def NoStartupFallback (st : LbState) : Prop :=
  (st.fallback_at_startup_checks_pending = false ∧ st.lb_channel = true) ∨
  st.shutting_down = true

/-- The invariant is preserved by every serialized step. -/
theorem noStartupFallback_step (st : LbState) (e : LbEvent)
    (h : NoStartupFallback st) : NoStartupFallback (step st e).1 := by
  obtain ⟨sd, chan, calld, backoff, retry, slist, fm, pend, ft, w, cp, cpr⟩ := st
  unfold NoStartupFallback at h ⊢
  cases e <;> cases calld <;> cases sd <;> cases chan <;> cases pend <;>
    simp_all [step, updateLocked, updateBalancerChannelLocked,
      createOrUpdateChildPolicyLocked, startBalancerCallLocked,
      startBalancerCallRetryTimerLocked, onBalancerCallRetryTimerLocked,
      onFallbackTimerLocked, onInitialResponseLocked,
      serverlistIsDuplicate, installNewServerlistLocked,
      onServerlistReceivedLocked, onFallbackRequestedLocked,
      onBalancerStatusReceivedLocked, maybeEnterFallbackModeAfterStartup,
      onBalancerChannelStateChangedLocked, helperUpdateState,
      shutdownLocked] <;>
    (repeat' split) <;> simp_all

/-- The invariant is preserved by any event sequence. -/
theorem noStartupFallback_run (st : LbState) (events : List LbEvent)
    (h : NoStartupFallback st) : NoStartupFallback (run st events) := by
  induction events generalizing st with
  | nil => simpa [run] using h
  | cons e es ih =>
      have : run st (e :: es) = run (step st e).1 es := by
        simp [run]
      rw [this]
      exact ih _ (noStartupFallback_step st e h)

/-- Under the invariant, a fallback-timer firing changes nothing visible:
fallback mode is untouched and no actions are emitted. -/
theorem noStartupFallback_timer_noop (st : LbState) (h : NoStartupFallback st) :
    (step st .fallbackTimerFired).1.fallback_mode = st.fallback_mode ∧
    (step st .fallbackTimerFired).2 = [] := by
  obtain ⟨sd, chan, calld, backoff, retry, slist, fm, pend, ft, w, cp, cpr⟩ := st
  unfold NoStartupFallback at h
  rcases h with ⟨hp, hc⟩ | hs
  · simp only at hp
    subst hp
    cases ft <;> simp [step, onFallbackTimerLocked]
  · simp only at hs
    subst hs
    cases ft <;> cases pend <;> simp [step, onFallbackTimerLocked]

/-- C3: While the startup checks are pending, receiving a (new) SERVERLIST
clears the pending flag and cancels the fallback timer and the connectivity
watcher; the fallback-timer callback acts only when the flag is still set and
the policy is not shutting down; hence after the serverlist receipt, no
sequence of further events lets a fallback-timer firing enter fallback mode
or emit any action for the rest of the policy's lifetime. -/
theorem C3_serverlist_beats_fallback_timer (st : LbState) (c : CalldState)
    (entries : List GrpcLbServer)
    (hcall : st.lb_calld = some c)
    (hpend : st.fallback_at_startup_checks_pending = true)
    (hchan : st.lb_channel = true)
    (hsd : st.shutting_down = false)
    (hnew : serverlistIsDuplicate st entries = false) :
    (step st (.serverlistReceived entries)).1.fallback_at_startup_checks_pending
        = false ∧
    Action.cancelFallbackTimer ∈ (step st (.serverlistReceived entries)).2 ∧
    Action.cancelConnectivityWatch ∈ (step st (.serverlistReceived entries)).2 ∧
    (∀ st2 : LbState,
      (st2.fallback_at_startup_checks_pending = false ∨ st2.shutting_down = true) →
      onFallbackTimerLocked st2 = (st2, [])) ∧
    (∀ events : List LbEvent,
      (step (run (step st (.serverlistReceived entries)).1 events)
          .fallbackTimerFired).1.fallback_mode =
        (run (step st (.serverlistReceived entries)).1 events).fallback_mode ∧
      (step (run (step st (.serverlistReceived entries)).1 events)
          .fallbackTimerFired).2 = []) := by
  have hbase : NoStartupFallback (step st (.serverlistReceived entries)).1 ∧
      (step st (.serverlistReceived entries)).1.fallback_at_startup_checks_pending
          = false ∧
      Action.cancelFallbackTimer ∈ (step st (.serverlistReceived entries)).2 ∧
      Action.cancelConnectivityWatch ∈ (step st (.serverlistReceived entries)).2 := by
    obtain ⟨sd, chan, calld, backoff, retry, slist, fm, pend, ft, w, cp, cpr⟩ := st
    simp only at hcall hpend hchan hsd hnew
    subst hcall; subst hpend; subst hchan; subst hsd
    unfold NoStartupFallback
    cases slist with
    | none =>
        cases fm <;>
          simp [step, onServerlistReceivedLocked, serverlistIsDuplicate,
            installNewServerlistLocked, createOrUpdateChildPolicyLocked]
    | some cur =>
        have hne : ¬ cur.serverlist = entries := by
          by_contra hc2
          simp [serverlistIsDuplicate, hc2] at hnew
        cases fm <;>
          simp [step, onServerlistReceivedLocked, serverlistIsDuplicate,
            installNewServerlistLocked, createOrUpdateChildPolicyLocked, hne]
  refine ⟨hbase.2.1, hbase.2.2.1, hbase.2.2.2, ?_, ?_⟩
  · intro st2 h2
    obtain ⟨sd, chan, calld, backoff, retry, slist, fm, pend, ft, w, cp, cpr⟩ := st2
    rcases h2 with hp | hs
    · simp only at hp
      simp_all [onFallbackTimerLocked]
    · simp only at hs
      simp_all [onFallbackTimerLocked]
  · intro events
    exact noStartupFallback_timer_noop _
      (noStartupFallback_run _ events hbase.1)

/-- Witness for C3: the first conjunct evaluated at the concrete startup
state with a one-entry serverlist. -/
theorem C3_serverlist_beats_fallback_timer_witness :
    (step exStartupState
        (.serverlistReceived [exBackendServer])).1.fallback_at_startup_checks_pending
      = false :=
  (C3_serverlist_beats_fallback_timer exStartupState
    { seen_initial_response := false, seen_serverlist := false }
    [exBackendServer] rfl rfl rfl rfl (by decide)).1

end GrpclbPolicy
